import Mathlib

/-!
# Verification of the pypost-it flow-layout engine

This file gives a shallow embedding of the flow-layout engine of the
`clickpost` package (`letter.py`, `block_models.py`, `Exceptions.py`) and
settles the frozen claims about it.

Modelling conventions:

* Geometry (margins, cursor coordinates, measured heights) is carried in `ℚ`.
* Python strings are embedded as `List Char`; `str.split(" ")` and
  `" ".join(...)` are embedded as `pySplit` / `pyJoin` below, which keep the
  empty fragments produced by consecutive separators exactly as Python does.
* `fpdf.multi_cell` is treated through the Measurement Port abstraction: a
  `Measure` function gives the height a dry run returns for a string; a
  non-dry call records the drawn string, advances `y` by that height and
  resets `x` to the left margin (`new_x=XPos.LMARGIN, new_y=YPos.NEXT`).
* Alignment values are represented by the single-letter tag strings
  `"L"`, `"R"`, `"C"`, `"J"` that `letter.py` itself compares against
  (`obj.alignment in ["L", "R"]`, `qr_code.alignment == "L"`, ...).
* Python runtime failures are made explicit: an operation returns the state
  reached so far (Python exceptions leave prior attribute mutations in
  place) together with `Option PyError`.
* `Exceptions.py` defines no `LayoutStateError` and no `ColumnWidthMismatch`
  class; the error types below therefore contain no such constructors.  The
  table/line validators come from `block_models.py` with their conditions
  exactly as written in the source (several are inverted relative to their
  own error messages; that is the source text, not a transcription slip).
-/

/-- Error values corresponding to Python built-in exceptions raised by the
engine code itself (`ValueError` from tuple unpacking, `TypeError` from
operations on values of the wrong type). -/
inductive PyError where
  | valueError
  | typeError
deriving DecidableEq, Repr

/-- The exception classes of `Exceptions.py` that the block validators in
`block_models.py` raise.  `Exceptions.py` defines no `LayoutStateError`. -/
inductive BlockErr where
  | tableDataError
  | alignmentError
  | columnWidthError
  | columnTotalError
  | lineHeightError
  | lineWidthError
  | linePaddingError
  | colourError
deriving DecidableEq, Repr

/-- Model of `block_models.Margins`: the dataclass `Margins(top, right, bottom, left)`.
It is a plain dataclass: it is not iterable and cannot be unpacked into four
scalars. -/
structure Margins where
  top : ℚ
  right : ℚ
  bottom : ℚ
  left : ℚ
deriving DecidableEq, Repr

/-- A Python string, embedded as its list of characters. -/
abbrev Word := List Char

/-- The Measurement Port: the height `fpdf.multi_cell(0, 0, txt, dry_run=True,
output=MethodReturnValue.HEIGHT)` reports for a string at the current page
set-up. -/
abbrev Measure := Word → ℚ

/-- Python `text.split(" ")`: split on every single space, keeping the empty
fragments between consecutive separators (Python only collapses runs when
`split` is called with no argument, which the source does not do). -/
def pySplit (sep : Char) : List Char → List (List Char)
  | [] => [[]]
  | c :: cs =>
    match pySplit sep cs with
    | [] => [[c]]
    | w :: ws => if c = sep then [] :: w :: ws else (c :: w) :: ws

/-- Python `" ".join(words)`: interleave a single separator between the
fragments. -/
def pyJoin (sep : Char) : List (List Char) → List Char
  | [] => []
  | [w] => w
  | w :: v :: ws => w ++ sep :: pyJoin sep (v :: ws)

/-- The mutable state of a `PDF` instance (`letter.py`): the fpdf margins and
cursor, the `original_margins` list built by `__init__`
(`self.original_margins = [self.template.margins]` — a one-element list
holding the `Margins` dataclass), the wrap fields, and the trace of strings
committed by non-dry `multi_cell` calls. -/
structure PDFState where
  l_margin : ℚ
  t_margin : ℚ
  r_margin : ℚ
  x : ℚ
  y : ℚ
  original_margins : List Margins
  wrap_on : Bool
  wrap_y_end : Option ℚ
  wrap_x : Option ℚ
  wrap_dir : Option String
  drawn : List Word
deriving DecidableEq, Repr

/-- The state of a freshly constructed `PDF(template)`:
`original_margins = [template.margins]` and fpdf A4 defaults elsewhere. -/
def pdfInit (tm : Margins) : PDFState :=
  { l_margin := 10
    t_margin := 10
    r_margin := 10
    x := 10
    y := 10
    original_margins := [tm]
    wrap_on := false
    wrap_y_end := none
    wrap_x := none
    wrap_dir := none
    drawn := [] }

/-- A non-dry `multi_cell(0, 0, txt=txt, ..., dry_run=dry, new_x=XPos.LMARGIN,
new_y=YPos.NEXT)`: a dry run only measures; a real run commits the string,
advances `y` by the measured height and moves `x` back to the left margin. -/
def multiCellDraw (m : Measure) (s : PDFState) (txt : Word) (dry : Bool) : PDFState :=
  if dry then s
  else { s with drawn := s.drawn ++ [txt], y := s.y + m txt, x := s.l_margin }

/-- Model of `PDF._reset_margin`.  Its first statement is
`l_margin, r_margin, t_margin, _ = self.original_margins`; `original_margins`
is the one-element list `[template.margins]`, so the four-target unpacking
raises `ValueError` before any margin or wrap field is touched.  (A
four-element list — impossible from `__init__` — would put `Margins`
dataclass objects where fpdf expects numbers and fail in
`set_margins` with `TypeError`.) -/
def reset_margin (s : PDFState) : PDFState × Option PyError :=
  match s.original_margins with
  | [_a, _b, _c, _d] => (s, some PyError.typeError)
  | _ => (s, some PyError.valueError)

/-- The attributes `PDF._sort_wrap` reads from the float it is given
(`Union[ImageBlock, QrBlock]`): `size` (a width/height pair), `alignment`
(compared against the tags `"L"` and `"R"`), and `wrap_text`. -/
structure FloatBlock where
  size : ℚ × ℚ
  alignment : String
  wrap_text : Bool
deriving DecidableEq, Repr

/-- Model of `PDF._sort_wrap`: it unconditionally overwrites `wrap_y_end` and `wrap_x`
from the cursor and the float size; then, only for a wrap-enabled Left/Right
float, sets `wrap_on` and tries to unpack `original_margins` — which raises
`ValueError` (see `reset_margin`), so the `set_margins` narrowing below the
unpacking is never reached. -/
def sort_wrap (s : PDFState) (obj : FloatBlock) : PDFState × Option PyError :=
  let s1 := { s with
    wrap_y_end := some (s.y + obj.size.2)
    wrap_x := some (s.x + obj.size.1) }
  if obj.wrap_text = true ∧ (obj.alignment = "L" ∨ obj.alignment = "R") then
    let s2 := { s1 with wrap_on := true }
    match s2.original_margins with
    | [_a, _b, _c, _d] => (s2, some PyError.typeError)
    | _ => (s2, some PyError.valueError)
  else (s1, none)

/-- The attributes of a text block that `PDF.insert_text` and
`PDF.insert_wrapped` use: the text, the alignment tag, `line_height`,
`ignore_wrap`, and whether the block is a `FixedTextBlock`. -/
structure TextBlock where
  text : Word
  alignment : String
  line_height : ℚ
  ignore_wrap : Bool
  is_fixed : Bool
deriving DecidableEq, Repr

/-- The word-accumulation loop of `PDF.insert_wrapped`: append the next word
to `split_string`, join with single spaces, dry-measure the joined string,
and stop at the first candidate whose `x + height` goes past `wrap_y_end`,
remembering in `lastS` the last candidate that did not.  Returns the
`last_string` to commit and, when the boundary was hit, the index `i` at
which the loop broke. -/
def wrap_loop (m : Measure) (x yEnd : ℚ) (acc : List Word) (ws : List Word)
    (lastS : Word) (i : Nat) : Word × Option Nat :=
  match ws with
  | [] => (lastS, none)
  | w :: rest =>
    let acc' := acc ++ [w]
    let cs := pyJoin ' ' acc'
    if yEnd < x + m cs then (lastS, some i)
    else wrap_loop m x yEnd acc' rest cs (i + 1)

/-- Model of `PDF.insert_wrapped`: split the text on single spaces, run the
accumulation loop against `wrap_y_end`, commit the last fitting string, and —
only when the boundary was hit — call `_reset_margin` (which raises) before
the leftover words `words[i:]` would be written full-width. -/
def insert_wrapped (m : Measure) (s : PDFState) (t : TextBlock) (dry : Bool) :
    PDFState × Option PyError :=
  match s.wrap_y_end with
  | none => (s, some PyError.typeError)
  | some yEnd =>
    let words := pySplit ' ' t.text
    match wrap_loop m s.x yEnd [] words [] 0 with
    | (lastS, none) => (multiCellDraw m s lastS dry, none)
    | (lastS, some i) =>
      let s1 := multiCellDraw m s lastS dry
      match reset_margin s1 with
      | (s2, some e) => (s2, some e)
      | (s2, none) =>
        let new_text := pyJoin ' ' ((pySplit ' ' t.text).drop i)
        (multiCellDraw m s2 new_text dry, none)

/-- Model of `PDF.insert_text`: if a wrap is active and the block does not opt out,
delegate to `insert_wrapped`; `FixedTextBlock`s are written directly;
otherwise reset the margins first when a wrap is still on, then write the
block full-width. -/
def insert_text (m : Measure) (s : PDFState) (t : TextBlock) (dry : Bool) :
    PDFState × Option PyError :=
  if s.wrap_on = true ∧ t.ignore_wrap = false then insert_wrapped m s t dry
  else if t.is_fixed = true then (multiCellDraw m s t.text dry, none)
  else if s.wrap_on = true then
    match reset_margin s with
    | (s1, some e) => (s1, some e)
    | (s1, none) => (multiCellDraw m s1 t.text dry, none)
  else (multiCellDraw m s t.text dry, none)

/-- Model of `block_models.LineBlock.validate_fields`, conditions exactly as in the
source: `if self.height > 0: raise LineHeightError("height should be > 0")`,
then `if self.width >= 0: raise LineWidthError`, then
`if self.padding >= 0: raise LinePaddingError`. -/
def lineBlockValidate (height width padding : Int) : Option BlockErr :=
  if height > 0 then some BlockErr.lineHeightError
  else if width ≥ 0 then some BlockErr.lineWidthError
  else if padding ≥ 0 then some BlockErr.linePaddingError
  else none

/-- Model of `PDF.insert_line`: remember `y = self.get_y()`, emit the top padding with
`ln(padding)` when padding is truthy, draw `height` one-unit strokes while
advancing only the local `y`, emit the bottom padding, and finally
`set_y(y)` — which overwrites the cursor with the local value
`get_y() + height`, discarding both `ln(padding)` advances. -/
def insert_line (s : PDFState) (height : Nat) (padding : ℚ) : PDFState :=
  let yLocal := s.y
  let s1 := if padding ≠ 0 then { s with y := s.y + padding, x := s.l_margin } else s
  let yLocal := yLocal + height
  let s2 := if padding ≠ 0 then { s1 with y := s1.y + padding, x := s1.l_margin } else s1
  { s2 with y := yLocal, x := s2.l_margin }

/-- A Python value sitting in the `alignment` field of a `TableBlock`: a
member of the `Align` enum (carrying its tag), a raw string, or a list of
such atoms. -/
inductive PyAlignAtom where
  | enumMember (tag : String)
  | rawStr (s : String)
deriving DecidableEq, Repr

/-- The `alignment` field shape `Union[Align, List[Align]]` (which at runtime
may also hold raw strings, since the validators never reject them). -/
inductive PyAlignField where
  | atom (a : PyAlignAtom)
  | listOf (xs : List PyAlignAtom)
deriving DecidableEq, Repr

/-- Model of `TableBlock.check_alignment`, conditions exactly as in the source: an
`Align` member always satisfies `self.alignment in Align` and is rejected; a
list is rejected when all its elements are `Align` members. -/
def check_alignment : PyAlignField → Option BlockErr
  | PyAlignField.atom (PyAlignAtom.enumMember _) => some BlockErr.alignmentError
  | PyAlignField.atom (PyAlignAtom.rawStr _) => none
  | PyAlignField.listOf xs =>
    if xs.all (fun a => match a with
      | PyAlignAtom.enumMember _ => true
      | PyAlignAtom.rawStr _ => false) then some BlockErr.alignmentError
    else none

/-- Model of `TableBlock.check_widths`, conditions exactly as in the source: raise
`ColumnWidthError` when the widths do not sum to 1, then raise
`ColumnTotalError` when `len(self.col_widths) == len(self.data[0])` — i.e.
precisely when the widths DO match the column count. -/
def check_widths (col_widths : Option (List ℚ)) (data : List (List String)) :
    Option BlockErr :=
  match col_widths with
  | none => none
  | some ws =>
    if ws.sum ≠ 1 then some BlockErr.columnWidthError
    else if ws.length = (data.headD []).length then some BlockErr.columnTotalError
    else none

/-- Model of `TableBlock.validate_fields`: empty-data check, then `check_alignment`,
then `check_widths` (the colour checks always pass for typed 3-tuples of
ints and are omitted as always-`none`). -/
def tableValidate (data : List (List String)) (alignment : PyAlignField)
    (col_widths : Option (List ℚ)) : Option BlockErr :=
  if data.length = 0 then some BlockErr.tableDataError
  else
    match check_alignment alignment with
    | some e => some e
    | none => check_widths col_widths data

/-- The runtime value of `font.font_name`: a `pathlib.Path` (carrying its
stem) or a plain font-name string. -/
inductive PyFontName where
  | path (stem : String)
  | name (s : String)
deriving DecidableEq, Repr

/-- The process-wide state behind `PDF.loaded_fonts`: the list is a CLASS
attribute (`class PDF(FPDF): loaded_fonts = []`) and instances only ever
`append` to it, so the same list object is shared by every `PDF` instance in
the process. -/
structure ProcessState where
  loaded_fonts : List String
deriving DecidableEq, Repr

/-- Model of `PDF._font_needs_load`: when the font name is a `Path` whose stem is not
yet in the shared `loaded_fonts` list, load it (`add_font`), rewrite the
block font name to the stem, append the stem to the shared list and return
the stem; otherwise return `font.font_name` unchanged (for an already-loaded
`Path` this returns the `Path` object itself, not its stem).  The result is
the new shared state, the returned font name, and whether `add_font` was
called. -/
def font_needs_load (p : ProcessState) (fn : PyFontName) :
    ProcessState × PyFontName × Bool :=
  match fn with
  | PyFontName.path stem =>
    if stem ∈ p.loaded_fonts then (p, PyFontName.path stem, false)
    else ({ loaded_fonts := p.loaded_fonts ++ [stem] }, PyFontName.name stem, true)
  | PyFontName.name s => (p, PyFontName.name s, false)

/-! ## Helper lemmas -/

/-- Python `split` never returns an empty list: even the empty string splits
into `[""]`. -/
theorem pySplit_ne_nil (sep : Char) (l : List Char) : pySplit sep l ≠ [] := by
  cases l with
  | nil => simp [pySplit]
  | cons c cs =>
    simp only [pySplit]
    cases h : pySplit sep cs with
    | nil => simp
    | cons w ws =>
      by_cases hc : c = sep <;> simp [hc]

/-- Unfolding equation for `pySplit` on a nonempty string, phrased through
the already-computed split of the tail. -/
theorem pySplit_cons (sep c : Char) (cs w : List Char) (ws : List (List Char))
    (h : pySplit sep cs = w :: ws) :
    pySplit sep (c :: cs) = if c = sep then [] :: w :: ws else (c :: w) :: ws := by
  rw [pySplit, h]

/-- Both arms of the unpacking match in `reset_margin` leave the state
untouched and report an error. -/
theorem reset_margin_eq (s : PDFState) : ∃ err, reset_margin s = (s, some err) := by
  unfold reset_margin
  split
  · exact ⟨PyError.typeError, rfl⟩
  · exact ⟨PyError.valueError, rfl⟩

/-- Characterisation of the accumulation loop of `insert_wrapped`, generalised
over the already-consumed prefix `acc` (with `lastS` the join of `acc`, known
to fit whenever `acc` is nonempty, and the loop index equal to the length of
`acc`): if the loop never breaks, it returns the join of all words, which fits
whenever there is at least one word; if it breaks at index `j`, the word list
splits as `pre ++ wd :: post` with `j = pre.length`, the returned string is
the join of `pre` (which fit, when nonempty), and the join of `pre ++ [wd]`
is the first candidate that measured past the boundary. -/
theorem wrap_loop_spec (m : Measure) (x yEnd : ℚ) :
    ∀ (ws acc : List Word) (lastS l : Word) (hit : Option Nat),
      lastS = pyJoin ' ' acc →
      (acc ≠ [] → x + m lastS ≤ yEnd) →
      wrap_loop m x yEnd acc ws lastS acc.length = (l, hit) →
      (hit = none → l = pyJoin ' ' (acc ++ ws) ∧ (acc ++ ws ≠ [] → x + m l ≤ yEnd)) ∧
      (∀ j, hit = some j → ∃ pre wd post,
        acc ++ ws = pre ++ wd :: post ∧ j = pre.length ∧
        l = pyJoin ' ' pre ∧ yEnd < x + m (pyJoin ' ' (pre ++ [wd])) ∧
        (pre ≠ [] → x + m l ≤ yEnd)) := by
  intro ws
  induction ws with
  | nil =>
    intro acc lastS l hit h1 h2 hrun
    rw [wrap_loop] at hrun
    injection hrun with hl hh
    subst hl
    subst hh
    constructor
    · intro _
      refine ⟨by simpa using h1, fun hne => h2 (by simpa using hne)⟩
    · intro j hj
      cases hj
  | cons w rest ih =>
    intro acc lastS l hit h1 h2 hrun
    rw [wrap_loop] at hrun
    by_cases hex : yEnd < x + m (pyJoin ' ' (acc ++ [w]))
    · rw [if_pos hex] at hrun
      injection hrun with hl hh
      subst hl
      subst hh
      constructor
      · intro hno
        cases hno
      · intro j hj
        injection hj with hj
        subst hj
        exact ⟨acc, w, rest, rfl, rfl, h1, hex, fun hne => h2 hne⟩
    · rw [if_neg hex] at hrun
      have hlen : (acc ++ [w]).length = acc.length + 1 := by simp
      rw [← hlen] at hrun
      have h2' : acc ++ [w] ≠ [] → x + m (pyJoin ' ' (acc ++ [w])) ≤ yEnd :=
        fun _ => le_of_not_lt hex
      have hres := ih (acc ++ [w]) (pyJoin ' ' (acc ++ [w])) l hit rfl h2' hrun
      have hassoc : (acc ++ [w]) ++ rest = acc ++ w :: rest := by simp
      rw [hassoc] at hres
      exact hres

/-! ## The claims -/

/-- C2 (code bug evaluation): on the state a fresh `PDF(template)` builds —
`original_margins = [template.margins]` — the margin-restore operation
`_reset_margin` does not restore anything: the four-target unpacking of the
one-element `original_margins` list raises `ValueError` and leaves every
margin and wrap field exactly as it was, and a second call does the same. -/
theorem reset_margin_raises_value_error :
    reset_margin (pdfInit ⟨10, 10, 10, 10⟩) =
      (pdfInit ⟨10, 10, 10, 10⟩, some PyError.valueError) ∧
    reset_margin (reset_margin (pdfInit ⟨10, 10, 10, 10⟩)).1 =
      (pdfInit ⟨10, 10, 10, 10⟩, some PyError.valueError) := by
  decide

/-- C5 (code bug evaluation): with 2-column data and a valid alignment value,
`col_widths = (0.5, 0.5)` is rejected with `ColumnTotalError` — the check
raises exactly when the width count DOES equal the column count — while
`col_widths = (0.5, 0.6)` raises `ColumnWidthError`; and with the default
`Align.LEFT` alignment the table is rejected with `AlignmentError` before the
width checks are even reached. -/
theorem table_width_checks_misfire :
    tableValidate [["a", "b"], ["c", "d"]] (PyAlignField.atom (PyAlignAtom.rawStr "L"))
      (some [(1 : ℚ)/2, 1/2]) = some BlockErr.columnTotalError ∧
    tableValidate [["a", "b"], ["c", "d"]] (PyAlignField.atom (PyAlignAtom.rawStr "L"))
      (some [(1 : ℚ)/2, 3/5]) = some BlockErr.columnWidthError ∧
    tableValidate [["a", "b"], ["c", "d"]] (PyAlignField.atom (PyAlignAtom.enumMember "L"))
      (some [(1 : ℚ)/2, 1/2]) = some BlockErr.alignmentError := by
  refine ⟨?_, ?_, ?_⟩ <;> norm_num [tableValidate, check_alignment, check_widths]

/-- C6 (code bug evaluation): a `LineBlock` with `height = 3, padding = 2`
cannot even be constructed — `validate_fields` raises `LineHeightError`
precisely when `height > 0` — and running `insert_line` on such values
advances the cursor y from 20 to 23 (= start + height), not to 27
(= start + padding + height + padding): the final `set_y(y)` overwrites the
cursor with the local stroke position, discarding both `ln(padding)` calls. -/
theorem line_block_scenario_fails :
    lineBlockValidate 3 0 2 = some BlockErr.lineHeightError ∧
    (insert_line { pdfInit ⟨10, 10, 10, 10⟩ with y := 20 } 3 2).y = 23 := by
  refine ⟨by decide, ?_⟩
  norm_num [insert_line, pdfInit]

/-- C10 (code bug evaluation): when the wrap boundary is hit, `insert_wrapped`
never reaches the second draw call: `_reset_margin` raises `ValueError`
first, so only the fitted segment (here the empty string) is ever committed
and the remainder words are lost instead of being written full-width. -/
theorem insert_wrapped_loses_remainder :
    (insert_wrapped (fun _ => (5 : ℚ))
      { pdfInit ⟨10, 10, 10, 10⟩ with wrap_on := true, wrap_y_end := some 30, x := 70 }
      { text := "alpha beta".toList, alignment := "L", line_height := 1,
        ignore_wrap := false, is_fixed := false } false).2 = some PyError.valueError ∧
    (insert_wrapped (fun _ => (5 : ℚ))
      { pdfInit ⟨10, 10, 10, 10⟩ with wrap_on := true, wrap_y_end := some 30, x := 70 }
      { text := "alpha beta".toList, alignment := "L", line_height := 1,
        ignore_wrap := false, is_fixed := false } false).1.drawn = [[]] := by
  refine ⟨?_, ?_⟩ <;>
    norm_num [insert_wrapped, wrap_loop, pySplit, pyJoin, multiCellDraw,
      reset_margin, pdfInit]

/-- C1 (counterexample): a wrapped placement in which already the first
candidate measures past `wrap_y_end` (here the cursor x is 70, every string
measures 5 and the boundary is 30, which the axis-mismatched test
`x + height > wrap_y_end` exceeds immediately).  The committed fitted
segment — the first string drawn non-dry — is then the initial `last_string`,
the empty string, and its own dry-run measured extent `x + m ""` is 75 > 30:
the committed segment does NOT satisfy the boundary test the claim states. -/
theorem insert_wrapped_commits_overflowing_segment :
    ((insert_wrapped (fun _ => (5 : ℚ))
      { pdfInit ⟨10, 10, 10, 10⟩ with wrap_on := true, wrap_y_end := some 30, x := 70 }
      { text := "hello world".toList, alignment := "L", line_height := 1,
        ignore_wrap := false, is_fixed := false } false).1.drawn).head? = some ([] : Word) ∧
    (30 : ℚ) < 70 + (fun _ => (5 : ℚ)) ([] : Word) := by
  refine ⟨?_, by norm_num⟩
  norm_num [insert_wrapped, wrap_loop, pySplit, pyJoin, multiCellDraw,
    reset_margin, pdfInit]

/-- C3 (counterexample): with a wrap already active (`wrap_y_end = 50`),
placing a second wrap-enabled Left float of height 37 at `y = 40` does not
raise any `LayoutStateError` (no such exception exists in `Exceptions.py`):
`_sort_wrap` silently overwrites `wrap_y_end` to 77 and `wrap_x`, and the
error that does come out is the unconditional margin-unpacking `ValueError`
that any wrap-enabled float (first or second) triggers. -/
theorem sort_wrap_overwrites_active_wrap :
    (sort_wrap
      { pdfInit ⟨10, 10, 10, 10⟩ with
          wrap_on := true, wrap_y_end := some 50, wrap_x := some 60, y := 40 }
      { size := (30, 37), alignment := "L", wrap_text := true }).1.wrap_y_end = some 77 ∧
    (sort_wrap
      { pdfInit ⟨10, 10, 10, 10⟩ with
          wrap_on := true, wrap_y_end := some 50, wrap_x := some 60, y := 40 }
      { size := (30, 37), alignment := "L", wrap_text := true }).2 =
        some PyError.valueError := by
  refine ⟨?_, ?_⟩ <;> norm_num [sort_wrap, pdfInit]

/-- C4 (counterexample): a float with `wrap_text = False` still has wrap
fields written by its placement: `_sort_wrap` sets `wrap_y_end` and `wrap_x`
before it ever looks at `wrap_text`, so after placing a non-wrapping 50×60
float at the fresh-document cursor the previously-`None` fields hold values. -/
theorem sort_wrap_nonwrap_sets_wrap_fields :
    (pdfInit ⟨10, 10, 10, 10⟩).wrap_y_end = none ∧
    (sort_wrap (pdfInit ⟨10, 10, 10, 10⟩)
      { size := (50, 60), alignment := "L", wrap_text := false }).1.wrap_y_end = some 70 ∧
    (sort_wrap (pdfInit ⟨10, 10, 10, 10⟩)
      { size := (50, 60), alignment := "L", wrap_text := false }).1.wrap_x = some 60 := by
  refine ⟨rfl, ?_, ?_⟩ <;> norm_num [sort_wrap, pdfInit]

/-- C8 (counterexample): the word list `insert_wrapped` iterates over is
`text.split(" ")`, which does not collapse runs of spaces: the text with two
consecutive spaces produces an empty word and a different word list from the
single-space text. -/
theorem insert_wrapped_word_list_keeps_empties :
    [] ∈ pySplit ' ' ("a  b".toList) ∧
    pySplit ' ' ("a  b".toList) ≠ pySplit ' ' ("a b".toList) := by
  decide

/-- C9 (counterexample): `loaded_fonts` is a class attribute shared by every
`PDF` instance, so what a second instance observes from `_font_needs_load`
(whether `add_font` runs, and which font-name value comes back) differs
depending on whether another instance loaded the same font first. -/
theorem font_load_cross_instance_interference :
    (font_needs_load ⟨[]⟩ (PyFontName.path "custom")).2 ≠
    (font_needs_load (font_needs_load ⟨[]⟩ (PyFontName.path "custom")).1
      (PyFontName.path "custom")).2 := by
  decide

/-- Helper: a non-dry or dry `multi_cell` never changes the wrap fields or
the margins, only the cursor and the drawn trace. -/
theorem multiCellDraw_fields (m : Measure) (s : PDFState) (txt : Word) (dry : Bool) :
    (multiCellDraw m s txt dry).wrap_on = s.wrap_on ∧
    (multiCellDraw m s txt dry).wrap_y_end = s.wrap_y_end ∧
    (multiCellDraw m s txt dry).l_margin = s.l_margin ∧
    (multiCellDraw m s txt dry).t_margin = s.t_margin ∧
    (multiCellDraw m s txt dry).r_margin = s.r_margin := by
  unfold multiCellDraw
  split <;> exact ⟨rfl, rfl, rfl, rfl, rfl⟩

/-- C8 (amended): word splitting in `insert_wrapped` uses single space as the
only delimiter but does NOT collapse runs — consecutive separators yield
empty words — and precisely because nothing is collapsed, joining the word
list back with single spaces restores the original text exactly. -/
theorem split_words_roundtrip : ∀ l : List Char, pyJoin ' ' (pySplit ' ' l) = l := by
  intro l
  induction l with
  | nil => rfl
  | cons c cs ih =>
    cases h : pySplit ' ' cs with
    | nil => exact absurd h (pySplit_ne_nil ' ' cs)
    | cons w ws =>
      rw [h] at ih
      rw [pySplit_cons ' ' c cs w ws h]
      by_cases hc : c = ' '
      · subst hc
        rw [if_pos rfl]
        rw [pyJoin]
        rw [List.nil_append, ih]
      · rw [if_neg hc]
        cases ws with
        | nil =>
          rw [pyJoin] at ih
          rw [pyJoin, ih]
        | cons v vs =>
          rw [pyJoin] at ih
          rw [pyJoin]
          rw [List.cons_append, ih]

/-- C3 (amended): placing a wrap-enabled Left/Right float while a wrap is
already active raises no `LayoutStateError` (no such class exists): the
first wrap state is silently overwritten — `wrap_y_end` and `wrap_x` get the
new float geometry — and the call then fails with the margin-unpacking
`ValueError` that every wrap-enabled float (first or second) triggers, the
margins themselves never being narrowed. -/
theorem sort_wrap_double_float_value_error
    (s : PDFState) (obj : FloatBlock) (mg : Margins)
    (_hw : s.wrap_on = true) (hm : s.original_margins = [mg])
    (ht : obj.wrap_text = true) (ha : obj.alignment = "L" ∨ obj.alignment = "R") :
    sort_wrap s obj =
      ({ s with wrap_y_end := some (s.y + obj.size.2),
                wrap_x := some (s.x + obj.size.1),
                wrap_on := true }, some PyError.valueError) := by
  unfold sort_wrap
  rw [if_pos ⟨ht, ha⟩]
  simp [hm]

/-- Witness for C3 (amended) at concrete inputs: a second
Right-aligned wrap float on a state with an active wrap yields the
`ValueError`, not a layout-state error. -/
theorem sort_wrap_double_float_value_error_witness :
    (sort_wrap
      { pdfInit ⟨10, 10, 10, 10⟩ with wrap_on := true, wrap_y_end := some 50 }
      { size := (30, 37), alignment := "R", wrap_text := true }).2 =
      some PyError.valueError := by
  rw [sort_wrap_double_float_value_error
    { pdfInit ⟨10, 10, 10, 10⟩ with wrap_on := true, wrap_y_end := some 50 }
    { size := (30, 37), alignment := "R", wrap_text := true }
    ⟨10, 10, 10, 10⟩ rfl rfl rfl (Or.inr rfl)]

/-- C4 (amended): for a float with `wrap_text = False` or Center alignment,
`_sort_wrap` enables no wrap mode and narrows no margin — it returns without
error, leaving `wrap_on` and all three margins unchanged, so from a state
with no wrap active every subsequent text block is written by the plain
full-width `multi_cell` path — but the `wrap_y_end` and `wrap_x` fields ARE
unconditionally overwritten with the float geometry. -/
theorem sort_wrap_nonwrap_keeps_margins
    (s : PDFState) (obj : FloatBlock)
    (h : obj.wrap_text = false ∨ obj.alignment = "C") :
    sort_wrap s obj =
      ({ s with wrap_y_end := some (s.y + obj.size.2),
                wrap_x := some (s.x + obj.size.1) }, none) ∧
    (∀ (m : Measure) (t : TextBlock) (dry : Bool), s.wrap_on = false →
      insert_text m (sort_wrap s obj).1 t dry =
        (multiCellDraw m (sort_wrap s obj).1 t.text dry, none)) := by
  have hcond : ¬ (obj.wrap_text = true ∧ (obj.alignment = "L" ∨ obj.alignment = "R")) := by
    rcases h with h | h
    · intro hc
      rw [h] at hc
      exact Bool.false_ne_true hc.1
    · intro hc
      rcases hc.2 with h2 | h2 <;> rw [h] at h2 <;> exact absurd h2 (by decide)
  have h1 : sort_wrap s obj =
      ({ s with wrap_y_end := some (s.y + obj.size.2),
                wrap_x := some (s.x + obj.size.1) }, none) := by
    unfold sort_wrap
    rw [if_neg hcond]
  refine ⟨h1, ?_⟩
  intro m t dry hw
  rw [h1]
  unfold insert_text
  simp [hw]

/-- Witness for C4 (amended) at concrete inputs: a Center-aligned
wrap-requesting float is placed without error and leaves wrap mode off. -/
theorem sort_wrap_nonwrap_keeps_margins_witness :
    (sort_wrap (pdfInit ⟨10, 10, 10, 10⟩)
      { size := (50, 60), alignment := "C", wrap_text := true }).2 = none ∧
    (sort_wrap (pdfInit ⟨10, 10, 10, 10⟩)
      { size := (50, 60), alignment := "C", wrap_text := true }).1.wrap_on = false := by
  have h := sort_wrap_nonwrap_keeps_margins (pdfInit ⟨10, 10, 10, 10⟩)
    { size := (50, 60), alignment := "C", wrap_text := true } (Or.inr rfl)
  rw [h.1]
  exact ⟨rfl, rfl⟩

/-- C7 (confirmed): a wrapped text placement in which the accumulation loop
never finds a candidate measuring past `wrap_y_end` commits the joined text
and returns without touching the wrap state: `wrap_on` stays true, the
boundary and all three margins are unchanged, and any following text block
that does not opt out via `ignore_wrap` is again dispatched by `insert_text`
to the wrap path. -/
theorem insert_wrapped_sticky_wrap
    (m : Measure) (s : PDFState) (t : TextBlock) (yEnd : ℚ) (dry : Bool)
    (hw : s.wrap_on = true) (hy : s.wrap_y_end = some yEnd)
    (hfit : (wrap_loop m s.x yEnd [] (pySplit ' ' t.text) [] 0).2 = none) :
    (insert_wrapped m s t dry).2 = none ∧
    (insert_wrapped m s t dry).1.wrap_on = true ∧
    (insert_wrapped m s t dry).1.wrap_y_end = some yEnd ∧
    (insert_wrapped m s t dry).1.l_margin = s.l_margin ∧
    (insert_wrapped m s t dry).1.t_margin = s.t_margin ∧
    (insert_wrapped m s t dry).1.r_margin = s.r_margin ∧
    (∀ (t2 : TextBlock) (dry2 : Bool), t2.ignore_wrap = false →
      insert_text m (insert_wrapped m s t dry).1 t2 dry2 =
        insert_wrapped m (insert_wrapped m s t dry).1 t2 dry2) := by
  rcases hwl : wrap_loop m s.x yEnd [] (pySplit ' ' t.text) [] 0 with ⟨lastS, hit⟩
  rw [hwl] at hfit
  simp only at hfit
  subst hfit
  have hiw : insert_wrapped m s t dry = (multiCellDraw m s lastS dry, none) := by
    unfold insert_wrapped
    rw [hy]
    simp only [hwl]
  rw [hiw]
  obtain ⟨f1, f2, f3, f4, f5⟩ := multiCellDraw_fields m s lastS dry
  refine ⟨rfl, ?_, ?_, f3, f4, f5, ?_⟩
  · rw [f1, hw]
  · rw [f2, hy]
  · intro t2 dry2 hig
    unfold insert_text
    rw [if_pos ⟨by rw [f1, hw], hig⟩]

/-- Witness for C7 at concrete inputs: with a generous boundary
every word of the block fits beside the float and the wrap state survives the
placement. -/
theorem insert_wrapped_sticky_wrap_witness :
    (insert_wrapped (fun _ => (0 : ℚ))
      { pdfInit ⟨10, 10, 10, 10⟩ with wrap_on := true, wrap_y_end := some 100 }
      { text := "to be".toList, alignment := "L", line_height := 1,
        ignore_wrap := false, is_fixed := false } false).2 = none ∧
    (insert_wrapped (fun _ => (0 : ℚ))
      { pdfInit ⟨10, 10, 10, 10⟩ with wrap_on := true, wrap_y_end := some 100 }
      { text := "to be".toList, alignment := "L", line_height := 1,
        ignore_wrap := false, is_fixed := false } false).1.wrap_on = true := by
  have h := insert_wrapped_sticky_wrap (fun _ => (0 : ℚ))
    { pdfInit ⟨10, 10, 10, 10⟩ with wrap_on := true, wrap_y_end := some 100 }
    { text := "to be".toList, alignment := "L", line_height := 1,
      ignore_wrap := false, is_fixed := false } 100 false rfl rfl
    (by norm_num [wrap_loop, pySplit, pyJoin, pdfInit])
  exact ⟨h.1, h.2.1⟩

/-- C1 (amended): the committed fitted segment — the first string
`insert_wrapped` draws non-dry — is the last accumulated candidate whose
measured extent `x + height` did not exceed `wrap_y_end`; the first candidate
that exceeded the boundary is never the committed segment (the commit is the
join of the words strictly before it).  When no candidate exceeds, the whole
joined word list is committed and its extent respects the boundary; but when
already the first candidate exceeds, the committed segment is the initial
empty `last_string`, which was never measured and whose own extent may lie
past the boundary. -/
theorem insert_wrapped_commit_characterisation
    (m : Measure) (s : PDFState) (t : TextBlock) (yEnd : ℚ)
    (hy : s.wrap_y_end = some yEnd) (hd : s.drawn = []) :
    ∃ lastS hit,
      wrap_loop m s.x yEnd [] (pySplit ' ' t.text) [] 0 = (lastS, hit) ∧
      ((insert_wrapped m s t false).1.drawn).head? = some lastS ∧
      (hit = none → lastS = pyJoin ' ' (pySplit ' ' t.text) ∧ s.x + m lastS ≤ yEnd) ∧
      (∀ j, hit = some j → ∃ pre wd post,
        pySplit ' ' t.text = pre ++ wd :: post ∧ j = pre.length ∧
        lastS = pyJoin ' ' pre ∧ yEnd < s.x + m (pyJoin ' ' (pre ++ [wd])) ∧
        (pre ≠ [] → s.x + m lastS ≤ yEnd)) := by
  rcases hwl : wrap_loop m s.x yEnd [] (pySplit ' ' t.text) [] 0 with ⟨lastS, hit⟩
  have hspec := wrap_loop_spec m s.x yEnd (pySplit ' ' t.text) [] [] lastS hit rfl
    (fun hne => absurd rfl hne) hwl
  refine ⟨lastS, hit, rfl, ?_, ?_, ?_⟩
  · unfold insert_wrapped
    rw [hy]
    cases hit with
    | none =>
      simp only [hwl]
      simp [multiCellDraw, hd]
    | some i =>
      obtain ⟨err, herr⟩ := reset_margin_eq (multiCellDraw m s lastS false)
      simp only [hwl, herr]
      simp [multiCellDraw, hd]
  · intro hnone
    obtain ⟨hjoin, hfits⟩ := hspec.1 hnone
    rw [List.nil_append] at hjoin hfits
    exact ⟨hjoin, hfits (pySplit_ne_nil ' ' t.text)⟩
  · intro j hj
    obtain ⟨pre, wd, post, heq, hlen, hlast, hover, hfit⟩ := hspec.2 j hj
    rw [List.nil_append] at heq
    exact ⟨pre, wd, post, heq, hlen, hlast, hover, hfit⟩

/-- Witness for C1 (amended) at a concrete measure, state and text block. -/
theorem insert_wrapped_commit_characterisation_witness :
    ∃ lastS hit,
      wrap_loop (fun _ => (1 : ℚ))
        ({ pdfInit ⟨10, 10, 10, 10⟩ with
            wrap_on := true, wrap_y_end := some 100 } : PDFState).x 100 []
        (pySplit ' ' "ab cd".toList) [] 0 = (lastS, hit) ∧
      ((insert_wrapped (fun _ => (1 : ℚ))
        { pdfInit ⟨10, 10, 10, 10⟩ with wrap_on := true, wrap_y_end := some 100 }
        { text := "ab cd".toList, alignment := "L", line_height := 1,
          ignore_wrap := false, is_fixed := false } false).1.drawn).head? = some lastS ∧
      (hit = none → lastS = pyJoin ' ' (pySplit ' ' "ab cd".toList) ∧
        ({ pdfInit ⟨10, 10, 10, 10⟩ with
            wrap_on := true, wrap_y_end := some 100 } : PDFState).x +
          (fun _ => (1 : ℚ)) lastS ≤ 100) ∧
      (∀ j, hit = some j → ∃ pre wd post,
        pySplit ' ' "ab cd".toList = pre ++ wd :: post ∧ j = pre.length ∧
        lastS = pyJoin ' ' pre ∧
        100 < ({ pdfInit ⟨10, 10, 10, 10⟩ with
            wrap_on := true, wrap_y_end := some 100 } : PDFState).x +
          (fun _ => (1 : ℚ)) (pyJoin ' ' (pre ++ [wd])) ∧
        (pre ≠ [] → ({ pdfInit ⟨10, 10, 10, 10⟩ with
            wrap_on := true, wrap_y_end := some 100 } : PDFState).x +
          (fun _ => (1 : ℚ)) lastS ≤ 100)) :=
  insert_wrapped_commit_characterisation (fun _ => (1 : ℚ))
    { pdfInit ⟨10, 10, 10, 10⟩ with wrap_on := true, wrap_y_end := some 100 }
    { text := "ab cd".toList, alignment := "L", line_height := 1,
      ignore_wrap := false, is_fixed := false } 100 rfl rfl

/-- C9 (amended): the engine does hold process-wide mutable state: the
class-level `loaded_fonts` list is shared by every `PDF` instance, so once
any instance has loaded a custom font, a later call on ANY instance skips
`add_font` and returns the un-stemmed `Path` value instead of the stem —
rendering one document is observable from the other instance.  (The wrap
flags and margins, by contrast, are written as per-instance attributes.) -/
theorem font_needs_load_shared_list
    (p : ProcessState) (stem : String) (h : stem ∉ p.loaded_fonts) :
    font_needs_load p (PyFontName.path stem) =
      ({ loaded_fonts := p.loaded_fonts ++ [stem] }, PyFontName.name stem, true) ∧
    font_needs_load (font_needs_load p (PyFontName.path stem)).1 (PyFontName.path stem) =
      ((font_needs_load p (PyFontName.path stem)).1, PyFontName.path stem, false) := by
  have h1 : font_needs_load p (PyFontName.path stem) =
      ({ loaded_fonts := p.loaded_fonts ++ [stem] }, PyFontName.name stem, true) := by
    simp only [font_needs_load]
    rw [if_neg h]
  refine ⟨h1, ?_⟩
  rw [h1]
  simp only [font_needs_load]
  rw [if_pos (by simp)]

/-- Witness for C9 (amended) at concrete inputs: the first load of a
custom font goes through and mutates the shared list; the repeat call (as
another instance would make) is suppressed and yields a different value. -/
theorem font_needs_load_shared_list_witness :
    font_needs_load (⟨[]⟩ : ProcessState) (PyFontName.path "custom") =
      ({ loaded_fonts := ["custom"] }, PyFontName.name "custom", true) ∧
    font_needs_load
        (font_needs_load (⟨[]⟩ : ProcessState) (PyFontName.path "custom")).1
        (PyFontName.path "custom") =
      ((font_needs_load (⟨[]⟩ : ProcessState) (PyFontName.path "custom")).1,
        PyFontName.path "custom", false) :=
  font_needs_load_shared_list ⟨[]⟩ "custom" (by decide)
